import Mathlib

/-!
Verification development for the Kwami agent reconfiguration engine.

This file gives a shallow embedding of the session-lifecycle and
reconfiguration code of the agent (`src/agent/src/session.py`,
`src/agent/src/handlers/config_handler.py`, `src/agent/src/utils/provider.py`,
`src/agent/src/usage/tracker.py`, `src/agent/src/usage/reporter.py`) and
proves properties of the embedded definitions.

Modelling conventions:
* Python strings are `List Char` (`Str`); Python truthiness of a string is
  non-emptiness, of an optional value presence plus truthiness of the payload.
* Object identity of memory handles is modelled by an opaque numeric id
  (`MemId`); two handles are "the same object" iff their ids are equal, and
  `None` is identical only to `None`.
* Python floats that arrive from JSON configuration (speeds, temperatures)
  are modelled as rationals; the code only compares them for equality.
* Fallible collaborator calls (memory opening, pipeline factory, the billing
  POST) are modelled by explicit outcome parameters (`Except`/`Option`).
* Asyncio cleanup tasks are modelled by the list of memory ids they would
  close, in creation order.
-/

/-- Python strings, modelled as lists of characters. -/
abbrev Str := List Char

/-- View a Lean string literal as an embedded Python string. -/
def str (s : String) : Str := s.data

/-- Python `s.lower()` (per-character lowering, adequate for ASCII ids). -/
def strLower (s : Str) : Str := s.map Char.toLower

/-- Helper for `startsWithS`, recursing on the pattern so that an empty
pattern matches definitionally against any string. -/
def isPrefixAux : Str → Str → Bool
  | [], _ => true
  | _ :: _, [] => false
  | b :: p', a :: s' => a == b && isPrefixAux p' s'

/-- Python `s.startswith(p)`. -/
def startsWithS (s p : Str) : Bool := isPrefixAux p s

/-- Python `pat in s` (substring containment). -/
def containsS (s pat : Str) : Bool :=
  match s with
  | [] => pat.isEmpty
  | _ :: t => startsWithS s pat || containsS t pat

/-- Python truthiness of an optional string (`None` and `""` are falsy). -/
def truthyS : Option Str → Bool
  | none => false
  | some s => !s.isEmpty

/-- Unwrap an optional string, `None` becoming `""`. -/
def getS : Option Str → Str
  | none => []
  | some s => s

/-- Python truthiness of an optional number (`None` and `0` are falsy). -/
def truthyQ : Option ℚ → Bool
  | none => false
  | some q => decide (q ≠ 0)

/-- Unwrap an optional number, `None` becoming `0`. -/
def getQ : Option ℚ → ℚ
  | none => 0
  | some q => q

/-- Python truthiness of an optional integer. -/
def truthyZ : Option ℤ → Bool
  | none => false
  | some z => decide (z ≠ 0)

/-! ### `src/agent/src/utils/provider.py` -/

/-- OpenAI TTS voice names (`OPENAI_VOICES`). -/
def OPENAI_VOICES : List Str :=
  [str "alloy", str "ash", str "coral", str "echo", str "fable",
   str "nova", str "onyx", str "sage", str "shimmer"]

/-- Known provider prefixes for model names (`KNOWN_PROVIDERS`). -/
def KNOWN_PROVIDERS : List Str :=
  [str "elevenlabs", str "openai", str "cartesia", str "deepgram", str "google",
   str "anthropic", str "groq", str "deepseek", str "mistral", str "cerebras"]

/-- `strip_model_prefix(model, provider)`: drop a leading `provider/`. -/
def strip_model_prefix (model provider : Str) : Str :=
  if model.isEmpty then []
  else
    let pre := provider ++ ['/']
    if startsWithS model pre then model.drop pre.length else model

/-- `detect_tts_provider_from_model(model)`: explicit `provider/` prefixes
first (in source order), then model-name pattern families. -/
def detect_tts_provider_from_model (model : Str) : Option Str :=
  if model.isEmpty then none
  else
    let ml := strLower model
    if startsWithS ml (str "elevenlabs/") then some (str "elevenlabs")
    else if startsWithS ml (str "openai/") then some (str "openai")
    else if startsWithS ml (str "cartesia/") then some (str "cartesia")
    else if startsWithS ml (str "deepgram/") then some (str "deepgram")
    else if startsWithS ml (str "google/") then some (str "google")
    else if startsWithS ml (str "rime/") then some (str "rime")
    else if startsWithS ml (str "eleven_") || startsWithS ml (str "eleven-") then
      some (str "elevenlabs")
    else if startsWithS ml (str "tts-") || startsWithS ml (str "gpt-4o") then
      some (str "openai")
    else if startsWithS ml (str "sonic") then some (str "cartesia")
    else if startsWithS ml (str "aura") then some (str "deepgram")
    else if startsWithS ml (str "arcana") || startsWithS ml (str "mistv") then
      some (str "rime")
    else none

/-- `detect_tts_provider_from_voice(voice)`: classification purely by shape. -/
def detect_tts_provider_from_voice (voice : Str) : Option Str :=
  if voice.isEmpty then none
  else if decide (20 ≤ voice.length) && voice.all Char.isAlphanum then
    some (str "elevenlabs")
  else if decide (voice.length = 36) && decide (voice.count '-' = 4) then
    some (str "cartesia")
  else if OPENAI_VOICES.contains (strLower voice) then some (str "openai")
  else none

/-- `detect_provider_change(current, new_model, new_voice)`: model detection
first; voice detection only if the model did not change the provider. -/
def detect_provider_change (current_provider : Str)
    (new_model new_voice : Option Str) : Str × Bool :=
  let d1 : Str :=
    match new_model with
    | none => current_provider
    | some m =>
      if m.isEmpty then current_provider
      else
        match detect_tts_provider_from_model m with
        | some p => p
        | none => current_provider
  let d2 : Str :=
    if d1 = current_provider then
      match new_voice with
      | none => d1
      | some v =>
        if v.isEmpty then d1
        else
          match detect_tts_provider_from_voice v with
          | some p => p
          | none => d1
    else d1
  (d2, decide (d2 ≠ current_provider))

/-! ### `src/agent/src/config.py` (fields the handlers touch) -/

/-- `KwamiMemoryConfig` (the fields the handlers read or write). -/
structure KwamiMemoryConfig where
  enabled : Bool
  user_id : Str
deriving DecidableEq

/-- `KwamiPersonaConfig` (the fields the full-config parser touches). -/
structure KwamiPersonaConfig where
  name : Str
  personality : Str
  system_prompt : Str
  traits : List Str
deriving DecidableEq

/-- `KwamiVoiceConfig` (the fields the handlers touch). -/
structure KwamiVoiceConfig where
  stt_provider : Str
  stt_model : Str
  stt_language : Str
  llm_provider : Str
  llm_model : Str
  llm_temperature : ℚ
  llm_max_tokens : ℤ
  tts_provider : Str
  tts_model : Str
  tts_voice : Str
  tts_speed : ℚ
deriving DecidableEq

/-- `KwamiConfig`. -/
structure KwamiConfig where
  kwami_id : Str
  kwami_name : Str
  persona : KwamiPersonaConfig
  voice : KwamiVoiceConfig
  memory : KwamiMemoryConfig
deriving DecidableEq

/-- Dataclass defaults of `KwamiVoiceConfig`. -/
def default_voice_config : KwamiVoiceConfig :=
  { stt_provider := str "deepgram"
    stt_model := str "nova-2"
    stt_language := str "en"
    llm_provider := str "openai"
    llm_model := str "gpt-4o-mini"
    llm_temperature := 7 / 10
    llm_max_tokens := 1024
    tts_provider := str "openai"
    tts_model := str "tts-1"
    tts_voice := str "nova"
    tts_speed := 1 }

/-- Dataclass defaults of `KwamiPersonaConfig`. -/
def default_persona_config : KwamiPersonaConfig :=
  { name := str "Kwami"
    personality := str "A friendly and helpful AI companion"
    system_prompt := []
    traits := [] }

/-- Dataclass defaults of `KwamiConfig()`.  The memory `enabled` default is
`bool(os.getenv("ZEP_API_KEY"))`, an environment fact, so it is a parameter. -/
def default_kwami_config (env_memory_enabled : Bool) : KwamiConfig :=
  { kwami_id := []
    kwami_name := str "Kwami"
    persona := default_persona_config
    voice := default_voice_config
    memory := { enabled := env_memory_enabled, user_id := [] } }

/-! ### `src/agent/src/agent.py` / `src/agent/src/main.py` -/

/-- Opaque identity of a `KwamiMemory` object: two handles are the identical
Python object iff their ids coincide. -/
abbrev MemId := Nat

/-- `KwamiAgent`: the fields of `KwamiAgent.__init__` the session logic
reads (`self.kwami_config = config`, `self._memory = memory`,
`self._skip_greeting = skip_greeting`). -/
structure KwamiAgent where
  kwami_config : KwamiConfig
  _memory : Option MemId
  _skip_greeting : Bool
deriving DecidableEq

/-- `create_agent_from_config(config, vad, memory, skip_greeting)`: both the
realtime and the standard pipeline branch construct a `KwamiAgent` holding
the given config and the given memory handle unchanged. -/
def create_agent_from_config (config : KwamiConfig) (memory : Option MemId)
    (skip_greeting : Bool) : KwamiAgent :=
  { kwami_config := config, _memory := memory, _skip_greeting := skip_greeting }

/-! ### `src/agent/src/session.py` -/

/-- `SessionState` (the fields the reconfiguration logic touches);
`_cleanup_tasks` lists, in creation order, the memory handle each scheduled
cleanup task will close. -/
structure SessionState where
  current_agent : Option KwamiAgent
  user_identity : Option Str
  room_name : Option Str
  greeting_delivered : Bool
  _cleanup_tasks : List MemId
deriving DecidableEq

/-- `SessionState.update_agent`: schedule a cleanup task for the outgoing
memory only when the incoming agent holds a different memory object, then
swap the current reference. -/
def SessionState.update_agent (st : SessionState) (new_agent : KwamiAgent) :
    SessionState :=
  let tasks :=
    match st.current_agent with
    | some old =>
      match old._memory with
      | some m =>
        if new_agent._memory = some m then st._cleanup_tasks
        else st._cleanup_tasks ++ [m]
      | none => st._cleanup_tasks
    | none => st._cleanup_tasks
  { st with current_agent := some new_agent, _cleanup_tasks := tasks }

/-- `create_session_state`: fresh state, `greeting_delivered` defaults to
`False`, no pending cleanup tasks. -/
def create_session_state (initial_agent : KwamiAgent)
    (user_identity room_name : Option Str) : SessionState :=
  { current_agent := some initial_agent
    user_identity := user_identity
    room_name := room_name
    greeting_delivered := false
    _cleanup_tasks := [] }

/-! ### `src/agent/src/usage/tracker.py` -/

/-- Optional `(model_provider, model_name)` metadata of a metrics event. -/
structure MetricsMetadata where
  model_provider : Option Str
  model_name : Option Str
deriving DecidableEq

/-- A LiveKit `LLMMetrics` event (the attributes `on_llm_metrics` reads;
a missing attribute reads as `0` via `getattr` defaults). -/
structure LLMMetrics where
  total_tokens : ℤ
  prompt_tokens : ℤ
  completion_tokens : ℤ
  label : Option Str
  metadata : Option MetricsMetadata
deriving DecidableEq

/-- `_get_model_id(metrics)`: prefer `provider/name`, then bare name, then
the label, then `"unknown"`. -/
def _get_model_id (label : Option Str) (metadata : Option MetricsMetadata) :
    Str :=
  let fallback := if truthyS label then getS label else str "unknown"
  match metadata with
  | some md =>
    let provider := getS md.model_provider
    let name := getS md.model_name
    if !provider.isEmpty && !name.isEmpty then provider ++ '/' :: name
    else if !name.isEmpty then name
    else fallback
  | none => fallback

/-- `ModelUsage`: accumulated usage for a single model. -/
structure ModelUsage where
  model_type : Str
  model_id : Str
  total_units : ℚ
  event_count : ℕ
deriving DecidableEq

/-- The tracker's `_usage` dict, in insertion order. -/
abbrev UsageMap := List (Str × ModelUsage)

/-- The dict key `f"{model_type}:{model_id}"`. -/
def usage_key (model_type model_id : Str) : Str :=
  model_type ++ ':' :: model_id

/-- Dict lookup (first matching key). -/
def usage_find : UsageMap → Str → Option ModelUsage
  | [], _ => none
  | (k, e) :: rest, key => if k = key then some e else usage_find rest key

/-- The `total_units` accumulator of a key (`0` when absent). -/
def usage_total (u : UsageMap) (key : Str) : ℚ :=
  match usage_find u key with
  | some e => e.total_units
  | none => 0

/-- In-place mutation of the entry a key maps to (dict keys are unique, so
updating the first occurrence models `entry.total_units += amount;
entry.event_count += 1`). -/
def usage_update (key : Str) (amount : ℚ) : UsageMap → UsageMap
  | [] => []
  | (k, e) :: rest =>
    if k = key then
      (k, { e with total_units := e.total_units + amount,
                   event_count := e.event_count + 1 }) :: rest
    else (k, e) :: usage_update key amount rest

/-- `_get_or_create` followed by `total_units += amount` and
`event_count += 1` (dict insertion appends at the end). -/
def usage_bump (u : UsageMap) (model_type model_id : Str) (amount : ℚ) :
    UsageMap :=
  let key := usage_key model_type model_id
  match usage_find u key with
  | some _ => usage_update key amount u
  | none =>
    u ++ [(key, { model_type := model_type, model_id := model_id,
                  total_units := amount, event_count := 1 })]

/-- `UsageTracker.on_llm_metrics`: `tokens = total_tokens or
(prompt_tokens + completion_tokens)`; zero or negative measures are ignored. -/
def on_llm_metrics (u : UsageMap) (m : LLMMetrics) : UsageMap :=
  let model_id := _get_model_id m.label m.metadata
  let tokens : ℤ :=
    if m.total_tokens = 0 then m.prompt_tokens + m.completion_tokens
    else m.total_tokens
  if tokens ≤ 0 then u
  else usage_bump u (str "llm") model_id (tokens : ℚ)

/-- `UsageTracker.has_usage`: some accumulator is strictly positive. -/
def tracker_has_usage (u : UsageMap) : Bool :=
  u.any fun kv => decide (0 < kv.2.total_units)

/-! ### `src/agent/src/usage/reporter.py` -/

/-- Outcome of the single `aiohttp` POST: `none` models a raised transport
exception, `some s` a response with HTTP status `s`. -/
abbrev NetOutcome := Option ℕ

/-- `UsageReporter.report`: returns the boolean result paired with the
number of network calls issued.  `api_key` is the resolved signing
credential (`api_key or INTERNAL_API_KEY`). -/
def report (u : UsageMap) (api_key : Str) (net : NetOutcome) : Bool × ℕ :=
  if !tracker_has_usage u then (true, 0)
  else if api_key.isEmpty then (false, 0)
  else
    match net with
    | none => (false, 1)
    | some status => (if status = 200 then true else false, 1)

/-! ### `src/agent/src/handlers/config_handler.py` — partial voice/llm updates -/

/-- The `config` payload of an `updateType == "voice"` message (the keys
`update_voice` and `_update_stt_if_needed` read). -/
structure VoiceUpdate where
  tts_provider : Option Str
  tts_model : Option Str
  tts_voice : Option Str
  tts_speed : Option ℚ
  stt_provider : Option Str
  stt_model : Option Str
  stt_language : Option Str
deriving DecidableEq

/-- The `config` payload of an `updateType == "llm"` message. -/
structure LLMUpdate where
  provider : Option Str
  model : Option Str
  temperature : Option ℚ
deriving DecidableEq

/-- Lines 200–216 of `update_voice`: provider detection from model/voice,
then override by an explicit `tts_provider` field. -/
def update_voice_provider (cfg : KwamiVoiceConfig) (p : VoiceUpdate) :
    Str × Bool :=
  let current_provider := cfg.tts_provider
  let d := detect_provider_change current_provider p.tts_model p.tts_voice
  if truthyS p.tts_provider then
    let explicit_provider := getS p.tts_provider
    if explicit_provider ≠ d.1 then
      (explicit_provider, decide (explicit_provider ≠ current_provider))
    else d
  else d

/-- Lines 224–226: `new_speed is not None and float(new_speed) !=
float(current_speed)`, where `current_speed = stored or 1.0`. -/
def speed_actually_changed (cfg : KwamiVoiceConfig) (p : VoiceUpdate) : Bool :=
  match p.tts_speed with
  | none => false
  | some ns => decide (ns ≠ (if cfg.tts_speed = 0 then 1 else cfg.tts_speed))

/-- The `if provider_changed or speed_changed:` replace-vs-patch decision of
`update_voice` (speed forces a replace only for ElevenLabs). -/
def update_voice_replaces (cfg : KwamiVoiceConfig) (p : VoiceUpdate) : Bool :=
  (update_voice_provider cfg p).2 ||
    (speed_actually_changed cfg p && decide (cfg.tts_provider = str "elevenlabs"))

/-- Lines 234–252: build the replacement voice config — carry delta-supplied
model/voice, else clear them when the provider changed. -/
def update_voice_replace_config (cfg : KwamiVoiceConfig) (p : VoiceUpdate)
    (new_provider : Str) (provider_changed : Bool) : KwamiVoiceConfig :=
  let c1 := { cfg with tts_provider := new_provider }
  let c2 :=
    if truthyS p.tts_model then
      { c1 with tts_model := strip_model_prefix (getS p.tts_model) new_provider }
    else if provider_changed then { c1 with tts_model := [] }
    else c1
  let c3 :=
    if truthyS p.tts_voice then { c2 with tts_voice := getS p.tts_voice }
    else if provider_changed then { c2 with tts_voice := [] }
    else c2
  if truthyQ p.tts_speed then { c3 with tts_speed := getQ p.tts_speed } else c3

/-- `OpenAIVoices.STANDARD` from `src/agent/src/constants.py`. -/
def OpenAIVoices_STANDARD : List Str := OPENAI_VOICES

/-- Attributes of the live TTS object that `_update_tts_options` inspects,
plus whether its `update_options` call exists and succeeds. -/
structure TtsRuntime where
  present : Bool
  provider_attr : Str
  module_name : Str
  model_attr : Str
  has_update_options : Bool
  update_ok : Bool
deriving DecidableEq

/-- `_update_tts_options`: patch voice/speed on the live TTS without
recreating the agent; on success the stored config mirrors the new values. -/
def _update_tts_options (cfg : KwamiVoiceConfig) (p : VoiceUpdate)
    (new_voice : Option Str) (is_elevenlabs : Bool) (rt : TtsRuntime) :
    KwamiVoiceConfig :=
  if !rt.present then cfg
  else
    let tts_provider := strLower rt.provider_attr
    let tts_model := strLower rt.model_attr
    let is_inference_tts := containsS rt.module_name (str "inference")
    let _is_elevenlabs_tts := is_elevenlabs ||
      decide (tts_provider = str "elevenlabs") ||
      containsS rt.module_name (str "elevenlabs") ||
      containsS tts_model (str "elevenlabs")
    let is_openai_tts := containsS rt.module_name (str "openai") &&
      !is_inference_tts
    let nv1 : Option Str :=
      if truthyS new_voice then
        if is_openai_tts && !OpenAIVoices_STANDARD.contains (getS new_voice)
        then none
        else new_voice
      else none
    let has_voice_update := truthyS nv1
    let has_speed_update := truthyQ p.tts_speed && !is_inference_tts
    if (has_voice_update || has_speed_update) && rt.has_update_options then
      if rt.update_ok then
        let c1 := if truthyS nv1 then { cfg with tts_voice := getS nv1 } else cfg
        if truthyQ p.tts_speed then { c1 with tts_speed := getQ p.tts_speed }
        else c1
      else cfg
    else cfg

/-- Whether the live STT object exists and supports `update_options`. -/
structure SttRuntime where
  present : Bool
  has_update_options : Bool
deriving DecidableEq

/-- Lines 343–350: the STT provider/model replacement decision (explicit
field present and different from the stored value). -/
def stt_change_needed (cfg : KwamiVoiceConfig) (p : VoiceUpdate) : Bool :=
  (truthyS p.stt_provider && decide (getS p.stt_provider ≠ cfg.stt_provider)) ||
    (truthyS p.stt_model && decide (getS p.stt_model ≠ cfg.stt_model))

/-- `_update_stt_if_needed`: recreate the agent (passing the same memory
object) on an STT provider/model change, else patch the language on the live
STT — which does not touch the stored config or the agent reference. -/
def _update_stt_if_needed (st : SessionState) (agent : KwamiAgent)
    (p : VoiceUpdate) (_rst : SttRuntime) : SessionState :=
  let cfg := agent.kwami_config.voice
  if stt_change_needed cfg p then
    let v1 :=
      if truthyS p.stt_provider then
        { cfg with stt_provider := getS p.stt_provider }
      else cfg
    let v2 :=
      if truthyS p.stt_model then
        let stt_provider :=
          if truthyS p.stt_provider then getS p.stt_provider
          else v1.stt_provider
        { v1 with stt_model := strip_model_prefix (getS p.stt_model) stt_provider }
      else v1
    let v3 :=
      if truthyS p.stt_language then
        { v2 with stt_language := getS p.stt_language }
      else v2
    let new_config := { agent.kwami_config with voice := v3 }
    let new_agent := create_agent_from_config new_config agent._memory true
    st.update_agent new_agent
  else st

/-- `update_voice`: decide replace-vs-patch for TTS, then (patch path only)
evaluate the STT portion.  Callers pass `agent` aliased with
`st.current_agent`; the in-place mutation of the patch path is modelled by
storing the patched agent back into the state. -/
def update_voice (st : SessionState) (agent : KwamiAgent) (p : VoiceUpdate)
    (rt : TtsRuntime) (rst : SttRuntime) : SessionState :=
  let cfg := agent.kwami_config.voice
  let d := update_voice_provider cfg p
  let is_elevenlabs := decide (cfg.tts_provider = str "elevenlabs")
  if update_voice_replaces cfg p then
    let new_voice_config := update_voice_replace_config cfg p d.1 d.2
    let new_config := { agent.kwami_config with voice := new_voice_config }
    let new_agent := create_agent_from_config new_config agent._memory true
    st.update_agent new_agent
  else
    let patched := _update_tts_options cfg p p.tts_voice is_elevenlabs rt
    let agent' := { agent with kwami_config :=
      { agent.kwami_config with voice := patched } }
    let st' := { st with current_agent := some agent' }
    _update_stt_if_needed st' agent' p rst

/-- `update_llm`: always recreates the agent, passing the outgoing memory
handle through unchanged. -/
def update_llm (st : SessionState) (agent : KwamiAgent) (p : LLMUpdate) :
    SessionState :=
  let v := agent.kwami_config.voice
  let v1 :=
    if truthyS p.provider then { v with llm_provider := getS p.provider }
    else v
  let v2 :=
    if truthyS p.model then
      let llm_provider :=
        if truthyS p.provider then getS p.provider else v1.llm_provider
      { v1 with llm_model := strip_model_prefix (getS p.model) llm_provider }
    else v1
  let v3 :=
    match p.temperature with
    | some t => if t ≠ 0 then { v2 with llm_temperature := t } else v2
    | none => v2
  let new_config := { agent.kwami_config with voice := v3 }
  st.update_agent (create_agent_from_config new_config agent._memory true)

/-! ### `src/agent/src/handlers/config_handler.py` — `handle_full_config` -/

/-- The `tts` sub-object of a full `config` message. -/
structure TtsMsg where
  provider : Option Str
  model : Option Str
  voice : Option Str
  speed : Option ℚ
deriving DecidableEq

/-- The `llm` sub-object of a full `config` message. -/
structure LlmMsg where
  provider : Option Str
  model : Option Str
  temperature : Option ℚ
  maxTokens : Option ℤ
deriving DecidableEq

/-- The `stt` sub-object of a full `config` message. -/
structure SttMsg where
  provider : Option Str
  model : Option Str
  language : Option Str
deriving DecidableEq

/-- The `persona` sub-object of a full `config` message. -/
structure PersonaMsg where
  name : Option Str
  personality : Option Str
  systemPrompt : Option Str
  traits : Option (List Str)
deriving DecidableEq

/-- A parsed full `config` message (the keys `handle_full_config` reads;
absent sub-objects read as empty ones via `.get(..., {})`). -/
structure ConfigMessage where
  tts : TtsMsg
  llm : LlmMsg
  stt : SttMsg
  kwamiId : Option Str
  kwamiName : Option Str
  persona : PersonaMsg
  memory_enabled : Option Bool
deriving DecidableEq

/-- Lines 45–56 of `handle_full_config`: apply the `tts` sub-object. -/
def parse_tts_msg (v1 : KwamiVoiceConfig) (t : TtsMsg) : KwamiVoiceConfig :=
  let v2 :=
    if truthyS t.provider then { v1 with tts_provider := getS t.provider }
    else v1
  let v3 :=
    if truthyS t.model then
      let tts_provider :=
        if truthyS t.provider then getS t.provider else v2.tts_provider
      { v2 with tts_model := strip_model_prefix (getS t.model) tts_provider }
    else v2
  let v4 := if truthyS t.voice then { v3 with tts_voice := getS t.voice } else v3
  if truthyQ t.speed then { v4 with tts_speed := getQ t.speed } else v4

/-- Lines 58–68 of `handle_full_config`: apply the `llm` sub-object. -/
def parse_llm_msg (v1 : KwamiVoiceConfig) (l : LlmMsg) : KwamiVoiceConfig :=
  let v2 :=
    if truthyS l.provider then { v1 with llm_provider := getS l.provider }
    else v1
  let v3 :=
    if truthyS l.model then
      let llm_provider :=
        if truthyS l.provider then getS l.provider else v2.llm_provider
      { v2 with llm_model := strip_model_prefix (getS l.model) llm_provider }
    else v2
  let v4 :=
    if truthyQ l.temperature then
      { v3 with llm_temperature := getQ l.temperature }
    else v3
  if truthyZ l.maxTokens then { v4 with llm_max_tokens := l.maxTokens.getD 0 }
  else v4

/-- Lines 70–78 of `handle_full_config`: apply the `stt` sub-object. -/
def parse_stt_msg (v1 : KwamiVoiceConfig) (s : SttMsg) : KwamiVoiceConfig :=
  let v2 :=
    if truthyS s.provider then { v1 with stt_provider := getS s.provider }
    else v1
  let v3 :=
    if truthyS s.model then
      let stt_provider :=
        if truthyS s.provider then getS s.provider else v2.stt_provider
      { v2 with stt_model := strip_model_prefix (getS s.model) stt_provider }
    else v2
  if truthyS s.language then { v3 with stt_language := getS s.language } else v3

/-- Lines 93–102 of `handle_full_config`: apply the `persona` sub-object. -/
def parse_persona_msg (pe1 : KwamiPersonaConfig) (p : PersonaMsg) :
    KwamiPersonaConfig :=
  let pe2 :=
    if truthyS p.name then { pe1 with name := getS p.name } else pe1
  let pe3 :=
    if truthyS p.personality then
      { pe2 with personality := getS p.personality }
    else pe2
  let pe4 :=
    if truthyS p.systemPrompt then
      { pe3 with system_prompt := getS p.systemPrompt }
    else pe3
  match p.traits with
  | some ts => if !ts.isEmpty then { pe4 with traits := ts } else pe4
  | none => pe4

/-- Lines 39–102 of `handle_full_config`: build the new `KwamiConfig` from
the message on top of dataclass defaults, resolving the identity and — as a
side effect — setting `state.user_identity` when it was unset. -/
def parse_full_config (env_memory_enabled : Bool) (st : SessionState)
    (msg : ConfigMessage) : KwamiConfig × SessionState :=
  let c0 := default_kwami_config env_memory_enabled
  let v := parse_stt_msg (parse_llm_msg (parse_tts_msg c0.voice msg.tts) msg.llm) msg.stt
  let c1 := { c0 with voice := v }
  let kwami_id := if truthyS msg.kwamiId then msg.kwamiId else st.user_identity
  let c2 :=
    if truthyS kwami_id then { c1 with kwami_id := getS kwami_id } else c1
  let st1 :=
    if truthyS kwami_id && !truthyS st.user_identity then
      { st with user_identity := kwami_id }
    else st
  let c3 :=
    if truthyS msg.kwamiName then { c2 with kwami_name := getS msg.kwamiName }
    else c2
  ({ c3 with persona := parse_persona_msg c3.persona msg.persona }, st1)

/-- Lines 104–120 of `handle_full_config`: conditionally open a memory
handle.  `mem_result` is the outcome of `await create_memory(...)`: an error
models a raised exception, `ok none` the factory returning `None`. -/
def memory_stage (msg : ConfigMessage) (c : KwamiConfig)
    (mem_result : Except Unit (Option MemId)) :
    Except Unit (Option MemId × KwamiConfig) :=
  if c.memory.enabled || decide (msg.memory_enabled = some true) then
    let c1 :=
      match msg.memory_enabled with
      | some b => { c with memory := { c.memory with enabled := b } }
      | none => c
    if c1.memory.enabled then
      let c2 :=
        if c1.memory.user_id.isEmpty && !c1.kwami_id.isEmpty then
          { c1 with memory :=
            { c1.memory with user_id := str "kwami_" ++ c1.kwami_id } }
        else c1
      match mem_result with
      | .ok m => .ok (m, c2)
      | .error e => .error e
    else .ok (none, c1)
  else .ok (none, c)

/-- `handle_full_config`: parse, open memory, build the new agent with
`skip_greeting = state.greeting_delivered`, swap it in, and mark the
greeting delivered after the first successful handling.  Any failure is
caught; the state mutations already performed (identity resolution) are
kept.  The second component records the `skip_greeting` argument of each
factory invocation (`factory_ok = false` models the factory raising). -/
def handle_full_config (env_memory_enabled : Bool) (st : SessionState)
    (msg : ConfigMessage) (mem_result : Except Unit (Option MemId))
    (factory_ok : Bool) : SessionState × List Bool :=
  let pr := parse_full_config env_memory_enabled st msg
  let st1 := pr.2
  match memory_stage msg pr.1 mem_result with
  | .error _ => (st1, [])
  | .ok (memory, new_config) =>
    let skip_greeting := st1.greeting_delivered
    if factory_ok then
      let new_agent := create_agent_from_config new_config memory skip_greeting
      let st2 := st1.update_agent new_agent
      let st3 :=
        if !skip_greeting then { st2 with greeting_delivered := true } else st2
      (st3, [skip_greeting])
    else (st1, [skip_greeting])

/-! ### Helper lemmas -/

/-- Swapping onto an agent that carries the identical memory object never
schedules a cleanup task, and always commits the swap. -/
lemma update_agent_same_memory (st : SessionState) (a b : KwamiAgent)
    (hcur : st.current_agent = some a) (hmem : b._memory = a._memory) :
    (st.update_agent b)._cleanup_tasks = st._cleanup_tasks ∧
    (st.update_agent b).current_agent = some b := by
  refine ⟨?_, rfl⟩
  cases hm : a._memory with
  | none => simp [SessionState.update_agent, hcur, hm]
  | some m => simp [SessionState.update_agent, hcur, hm, hmem]

/-- The parse stage only ever touches `user_identity` of the state. -/
lemma parse_full_config_snd (env : Bool) (st : SessionState)
    (msg : ConfigMessage) :
    (parse_full_config env st msg).2.current_agent = st.current_agent ∧
    (parse_full_config env st msg).2.greeting_delivered = st.greeting_delivered ∧
    (parse_full_config env st msg).2._cleanup_tasks = st._cleanup_tasks := by
  unfold parse_full_config
  refine ⟨?_, ?_, ?_⟩ <;> (dsimp only; split <;> split <;> rfl)

/-- C1: `update_agent` schedules no cleanup task when the incoming agent
holds the identical memory object as the outgoing one, schedules exactly one
task (for the outgoing handle) when the memory objects differ and the
outgoing handle is non-null, and swaps the current reference to the new
instance in every case. -/
theorem C1_update_agent_cleanup (st : SessionState) (a b : KwamiAgent)
    (m : MemId) (hcur : st.current_agent = some a)
    (hmem : a._memory = some m) :
    (b._memory = some m →
      (st.update_agent b)._cleanup_tasks = st._cleanup_tasks) ∧
    (b._memory ≠ some m →
      (st.update_agent b)._cleanup_tasks = st._cleanup_tasks ++ [m]) ∧
    (∀ (s : SessionState) (c : KwamiAgent),
      (s.update_agent c).current_agent = some c) := by
  refine ⟨?_, ?_, fun s c => rfl⟩ <;> intro h <;>
    simp [SessionState.update_agent, hcur, hmem, h]

/-- Witness for C1 at a concrete swap: differing memory objects schedule
exactly the one cleanup task for the outgoing handle. -/
theorem C1_update_agent_cleanup_witness :
    (SessionState.update_agent
        (create_session_state ⟨default_kwami_config false, some 1, false⟩ none none)
        ⟨default_kwami_config false, some 2, true⟩)._cleanup_tasks = [1] := by
  have h := C1_update_agent_cleanup
    (create_session_state ⟨default_kwami_config false, some 1, false⟩ none none)
    ⟨default_kwami_config false, some 1, false⟩
    ⟨default_kwami_config false, some 2, true⟩ 1 rfl rfl
  simpa [create_session_state] using h.2.1 (by decide)

/-- C2: every factory invocation of `handle_full_config` receives
`skip_greeting` equal to `greeting_delivered` at entry; the flag starts as
`false` at session creation, is set exactly by the first successful full
config handling, is never reset (the result flag is the entry flag OR-ed
with success), and the partial-update handlers never touch it. -/
theorem C2_greeting_policy (env : Bool) (st : SessionState)
    (msg : ConfigMessage) (mr : Except Unit (Option MemId)) (fo : Bool) :
    (∀ b ∈ (handle_full_config env st msg mr fo).2,
      b = st.greeting_delivered) ∧
    ((handle_full_config env st msg mr fo).1.greeting_delivered =
      (st.greeting_delivered ||
        (!(handle_full_config env st msg mr fo).2.isEmpty && fo))) ∧
    (∀ (a : KwamiAgent) (u r : Option Str),
      (create_session_state a u r).greeting_delivered = false) ∧
    (∀ (st' : SessionState) (ag : KwamiAgent) (p : VoiceUpdate)
      (rt : TtsRuntime) (rst : SttRuntime),
      (update_voice st' ag p rt rst).greeting_delivered =
        st'.greeting_delivered) ∧
    (∀ (st' : SessionState) (ag : KwamiAgent) (p : LLMUpdate),
      (update_llm st' ag p).greeting_delivered = st'.greeting_delivered) := by
  have hg := (parse_full_config_snd env st msg).2.1
  refine ⟨?_, ?_, fun a u r => rfl, ?_, fun st' ag p => rfl⟩
  · intro b hb
    rcases hms : memory_stage msg (parse_full_config env st msg).1 mr with e | ⟨mem, cfg⟩ <;>
      simp only [handle_full_config, hms] at hb
    · simp at hb
    · cases fo <;> simp at hb <;> rw [hb, hg]
  · rcases hms : memory_stage msg (parse_full_config env st msg).1 mr with e | ⟨mem, cfg⟩ <;>
      simp only [handle_full_config, hms]
    · simpa using hg
    · cases fo
      · simpa using hg
      · cases hsk : (parse_full_config env st msg).2.greeting_delivered
        · have hst : st.greeting_delivered = false := hg.symm.trans hsk
          simp [hsk, hst]
        · have hst : st.greeting_delivered = true := hg.symm.trans hsk
          simp [hsk, hst, SessionState.update_agent]
  · intro st' ag p rt rst
    simp only [update_voice]
    split
    · rfl
    · simp only [_update_stt_if_needed]
      split <;> rfl

/-- Witness for C2 at a concrete first handling: factory called with
suppression `false`, flag set afterwards. -/
theorem C2_greeting_policy_witness :
    (handle_full_config false
        (create_session_state ⟨default_kwami_config false, none, false⟩ none none)
        ⟨⟨none, none, none, none⟩, ⟨none, none, none, none⟩, ⟨none, none, none⟩,
          none, none, ⟨none, none, none, none⟩, none⟩
        (.ok none) true).2 = [false] ∧
    (handle_full_config false
        (create_session_state ⟨default_kwami_config false, none, false⟩ none none)
        ⟨⟨none, none, none, none⟩, ⟨none, none, none, none⟩, ⟨none, none, none⟩,
          none, none, ⟨none, none, none, none⟩, none⟩
        (.ok none) true).1.greeting_delivered = true := by
  constructor
  · have h := (C2_greeting_policy false
      (create_session_state ⟨default_kwami_config false, none, false⟩ none none)
      ⟨⟨none, none, none, none⟩, ⟨none, none, none, none⟩, ⟨none, none, none⟩,
        none, none, ⟨none, none, none, none⟩, none⟩ (.ok none) true).1
    decide
  · have h := (C2_greeting_policy false
      (create_session_state ⟨default_kwami_config false, none, false⟩ none none)
      ⟨⟨none, none, none, none⟩, ⟨none, none, none, none⟩, ⟨none, none, none⟩,
        none, none, ⟨none, none, none, none⟩, none⟩ (.ok none) true).2.1
    rw [h]
    decide

/-- C3: when the memory stage or the factory raises during a full-config
handling (the factory was never successfully run: the call trace is empty,
or the factory outcome is a failure), the exception is absorbed and the
session's current instance is left exactly as it was. -/
theorem C3_failure_leaves_instance (env : Bool) (st : SessionState)
    (msg : ConfigMessage) (mr : Except Unit (Option MemId)) (fo : Bool)
    (h : (handle_full_config env st msg mr fo).2 = [] ∨ fo = false) :
    (handle_full_config env st msg mr fo).1.current_agent =
      st.current_agent := by
  have hc := (parse_full_config_snd env st msg).1
  rcases hms : memory_stage msg (parse_full_config env st msg).1 mr with e | ⟨mem, cfg⟩ <;>
    simp only [handle_full_config, hms] at h ⊢
  · simpa using hc
  · cases fo
    · simpa using hc
    · rcases h with h | h
      · simp at h
      · exact absurd h (by simp)

/-- Witness for C3: a concrete handling whose factory raises leaves the
current instance untouched. -/
theorem C3_failure_leaves_instance_witness :
    (handle_full_config false
        (create_session_state ⟨default_kwami_config false, some 7, false⟩ none none)
        ⟨⟨none, none, none, none⟩, ⟨none, none, none, none⟩, ⟨none, none, none⟩,
          none, none, ⟨none, none, none, none⟩, none⟩
        (.ok none) false).1.current_agent =
      (create_session_state ⟨default_kwami_config false, some 7, false⟩
        none none).current_agent :=
  C3_failure_leaves_instance false
    (create_session_state ⟨default_kwami_config false, some 7, false⟩ none none)
    ⟨⟨none, none, none, none⟩, ⟨none, none, none, none⟩, ⟨none, none, none⟩,
      none, none, ⟨none, none, none, none⟩, none⟩
    (.ok none) false (Or.inr rfl)

/-- When a truthy model id resolves a provider that differs from the current
one, `detect_provider_change` returns it with `changed = true`, ignoring the
voice id entirely. -/
lemma detect_provider_change_model_dominates (A m B : Str) (v : Option Str)
    (hm : m.isEmpty = false) (hd : detect_tts_provider_from_model m = some B)
    (hBA : B ≠ A) :
    detect_provider_change A (some m) v = (B, true) := by
  simp [detect_provider_change, hm, hd, hBA]

/-- Counterexample for C4 as stated: `anthropic` is a known provider
(`KNOWN_PROVIDERS`), yet a delta with model `anthropic/claude-3-5-sonnet`
and a Cartesia-shaped voice id resolves to `cartesia`, not `anthropic` —
the model-prefix table of `detect_tts_provider_from_model` recognizes only
six providers, so voice-shape detection wins for the others. -/
theorem C4_counterexample :
    str "anthropic" ∈ KNOWN_PROVIDERS ∧
    str "anthropic" ≠ str "openai" ∧
    detect_provider_change (str "openai")
        (some (str "anthropic/claude-3-5-sonnet"))
        (some (str "79a125e8-cd45-4c13-8a67-188112f4dd22")) =
      (str "cartesia", true) ∧
    detect_provider_change (str "openai")
        (some (str "anthropic/claude-3-5-sonnet"))
        (some (str "79a125e8-cd45-4c13-8a67-188112f4dd22")) ≠
      (str "anthropic", true) := by
  refine ⟨by decide, by decide, by decide, by decide⟩

/-- C4 amended: for every provider `B` whose prefix the model detector
recognizes (`elevenlabs`, `openai`, `cartesia`, `deepgram`, `google`,
`rime`), `B ≠ A`, a model id of the form `B/modelX` and any voice id, the
change detector resolves provider `B` with `changed = true` — model-based
detection takes precedence over voice-based detection. -/
theorem C4_model_takes_precedence (A B rest : Str) (voice : Option Str)
    (hB : B ∈ [str "elevenlabs", str "openai", str "cartesia",
               str "deepgram", str "google", str "rime"])
    (hBA : B ≠ A) :
    detect_provider_change A (some (B ++ '/' :: rest)) voice = (B, true) := by
  fin_cases hB <;>
    exact detect_provider_change_model_dominates A _ _ voice rfl rfl hBA

/-- Witness for the amended C4 at a concrete input. -/
theorem C4_model_takes_precedence_witness :
    detect_provider_change (str "openai")
        (some (str "cartesia" ++ '/' :: str "sonic-2")) (some (str "alloy")) =
      (str "cartesia", true) :=
  C4_model_takes_precedence (str "openai") (str "cartesia") (str "sonic-2")
    (some (str "alloy")) (by decide) (by decide)

/-- C5: a voice delta that triggers a TTS provider-change replacement while
supplying neither a truthy model id nor a truthy voice id yields a new
current agent whose config has both TTS model and TTS voice cleared. -/
theorem C5_provider_change_clears_fields (st : SessionState)
    (agent : KwamiAgent) (p : VoiceUpdate) (rt : TtsRuntime) (rst : SttRuntime)
    (hpc : (update_voice_provider agent.kwami_config.voice p).2 = true)
    (hm : truthyS p.tts_model = false) (hv : truthyS p.tts_voice = false) :
    ((update_voice st agent p rt rst).current_agent.map
        (fun a => (a.kwami_config.voice.tts_model,
                   a.kwami_config.voice.tts_voice))) = some ([], []) := by
  have hrep : update_voice_replaces agent.kwami_config.voice p = true := by
    unfold update_voice_replaces
    rw [hpc]
    rfl
  simp only [update_voice, hrep, if_true, SessionState.update_agent]
  simp only [Option.map_some, create_agent_from_config]
  simp [update_voice_replace_config, hm, hv, hpc]
  split <;> exact ⟨rfl, rfl⟩

/-- Witness for C5: switching the default OpenAI TTS config to Cartesia
with no model/voice in the delta clears both fields. -/
theorem C5_provider_change_clears_fields_witness :
    ((update_voice
        (create_session_state ⟨default_kwami_config false, none, false⟩ none none)
        ⟨default_kwami_config false, none, false⟩
        ⟨some (str "cartesia"), none, none, none, none, none, none⟩
        ⟨false, [], [], [], false, false⟩ ⟨false, false⟩).current_agent.map
        (fun a => (a.kwami_config.voice.tts_model,
                   a.kwami_config.voice.tts_voice))) = some ([], []) :=
  C5_provider_change_clears_fields
    (create_session_state ⟨default_kwami_config false, none, false⟩ none none)
    ⟨default_kwami_config false, none, false⟩
    ⟨some (str "cartesia"), none, none, none, none, none, none⟩
    ⟨false, [], [], [], false, false⟩ ⟨false, false⟩
    (by decide) (by decide) (by decide)

/-- C6: when the delta changes no provider, the replace decision is forced
exactly by a supplied speed that numerically differs from the stored speed
(a falsy stored speed reading as the default `1.0`) while the current
provider is ElevenLabs; resending the numerically equal speed never forces
a replacement. -/
theorem C6_speed_only_replacement (cfg : KwamiVoiceConfig) (p : VoiceUpdate)
    (hpc : (update_voice_provider cfg p).2 = false) :
    update_voice_replaces cfg p = true ↔
      (cfg.tts_provider = str "elevenlabs" ∧
        ∃ ns, p.tts_speed = some ns ∧
          ns ≠ (if cfg.tts_speed = 0 then 1 else cfg.tts_speed)) := by
  unfold update_voice_replaces speed_actually_changed
  rw [hpc]
  cases hs : p.tts_speed with
  | none => simp
  | some ns =>
    simp only [Bool.false_or, Bool.and_eq_true, decide_eq_true_eq,
      Option.some.injEq]
    constructor
    · rintro ⟨h1, h2⟩
      exact ⟨h2, ns, rfl, h1⟩
    · rintro ⟨h1, ns', heq, h2⟩
      exact ⟨heq ▸ h2, h1⟩

/-- Witness for C6: an ElevenLabs config at stored speed `1` with a delta
speed `2` forces a replacement. -/
theorem C6_speed_only_replacement_witness :
    update_voice_replaces
      { default_voice_config with tts_provider := str "elevenlabs" }
      ⟨none, none, none, some 2, none, none, none⟩ = true :=
  (C6_speed_only_replacement
      { default_voice_config with tts_provider := str "elevenlabs" }
      ⟨none, none, none, some 2, none, none, none⟩ (by decide)).mpr
    ⟨rfl, 2, rfl, by decide⟩

/-- Counterexample for C7 as stated: a voice delta that changes the TTS
provider (openai → cartesia) and simultaneously requests an STT provider
change (deepgram → openai) takes the TTS replace path, which ignores the
STT portion entirely — the resulting config still has `deepgram` — so the
STT portion is not evaluated independently of the TTS patch-or-replace
outcome (and `_update_stt_if_needed` uses explicit field comparison only,
never identifier-based inference). -/
theorem C7_counterexample :
    stt_change_needed (default_kwami_config false).voice
      ⟨some (str "cartesia"), none, none, none, some (str "openai"), none, none⟩ = true ∧
    ((update_voice
        (create_session_state ⟨default_kwami_config false, none, false⟩ none none)
        ⟨default_kwami_config false, none, false⟩
        ⟨some (str "cartesia"), none, none, none, some (str "openai"), none, none⟩
        ⟨false, [], [], [], false, false⟩ ⟨false, false⟩).current_agent.map
        (fun a => a.kwami_config.voice.stt_provider)) = some (str "deepgram") ∧
    str "deepgram" ≠ str "openai" := by
  refine ⟨by decide, by decide, by decide⟩

/-- The in-place TTS option patch never touches the STT fields. -/
lemma update_tts_options_stt (cfg : KwamiVoiceConfig) (p : VoiceUpdate)
    (nv : Option Str) (el : Bool) (rt : TtsRuntime) :
    (_update_tts_options cfg p nv el rt).stt_provider = cfg.stt_provider ∧
    (_update_tts_options cfg p nv el rt).stt_model = cfg.stt_model ∧
    (_update_tts_options cfg p nv el rt).stt_language = cfg.stt_language := by
  simp only [_update_tts_options]
  refine ⟨?_, ?_, ?_⟩ <;> (repeat' split) <;> rfl

/-- The replacement voice config built on the TTS replace path never
touches the STT fields. -/
lemma update_voice_replace_config_stt (cfg : KwamiVoiceConfig)
    (p : VoiceUpdate) (np : Str) (pc : Bool) :
    (update_voice_replace_config cfg p np pc).stt_provider = cfg.stt_provider ∧
    (update_voice_replace_config cfg p np pc).stt_model = cfg.stt_model ∧
    (update_voice_replace_config cfg p np pc).stt_language = cfg.stt_language := by
  simp only [update_voice_replace_config]
  refine ⟨?_, ?_, ?_⟩ <;> (repeat' split) <;> rfl

/-- C7 amended: the STT portion of a voice delta is evaluated only on the
TTS patch path.  A TTS replacement carries the stored STT fields into the
new config unchanged; on the patch path, an STT replacement happens exactly
when an explicit `stt_provider`/`stt_model` differs from the stored value
(no identifier-based inference), the new provider being the explicit field
when supplied. -/
theorem C7_stt_gated_by_tts_outcome (st : SessionState) (agent : KwamiAgent)
    (p : VoiceUpdate) (rt : TtsRuntime) (rst : SttRuntime) :
    (update_voice_replaces agent.kwami_config.voice p = true →
      ((update_voice st agent p rt rst).current_agent.map
          (fun a => (a.kwami_config.voice.stt_provider,
                     a.kwami_config.voice.stt_model,
                     a.kwami_config.voice.stt_language))) =
        some (agent.kwami_config.voice.stt_provider,
              agent.kwami_config.voice.stt_model,
              agent.kwami_config.voice.stt_language)) ∧
    (update_voice_replaces agent.kwami_config.voice p = false →
      stt_change_needed agent.kwami_config.voice p = false →
      ((update_voice st agent p rt rst).current_agent.map
          (fun a => (a.kwami_config.voice.stt_provider,
                     a.kwami_config.voice.stt_model))) =
        some (agent.kwami_config.voice.stt_provider,
              agent.kwami_config.voice.stt_model)) ∧
    (update_voice_replaces agent.kwami_config.voice p = false →
      stt_change_needed agent.kwami_config.voice p = true →
      ((update_voice st agent p rt rst).current_agent.map
          (fun a => a.kwami_config.voice.stt_provider)) =
        some (if truthyS p.stt_provider then getS p.stt_provider
              else agent.kwami_config.voice.stt_provider)) := by
  have hpres := update_tts_options_stt agent.kwami_config.voice p p.tts_voice
    (decide (agent.kwami_config.voice.tts_provider = str "elevenlabs")) rt
  refine ⟨?_, ?_, ?_⟩
  · intro h
    have hs := update_voice_replace_config_stt agent.kwami_config.voice p
      (update_voice_provider agent.kwami_config.voice p).1
      (update_voice_provider agent.kwami_config.voice p).2
    simp only [update_voice, h, if_true, SessionState.update_agent,
      Option.map_some, create_agent_from_config]
    simp [hs.1, hs.2.1, hs.2.2]
  · intro h h2
    have hcn : stt_change_needed
        (_update_tts_options agent.kwami_config.voice p p.tts_voice
          (decide (agent.kwami_config.voice.tts_provider = str "elevenlabs")) rt)
        p = false := by
      unfold stt_change_needed at h2 ⊢
      rw [hpres.1, hpres.2.1]
      exact h2
    simp only [update_voice, h]
    simp only [Bool.false_eq_true, if_false, _update_stt_if_needed, hcn]
    simp [hpres.1, hpres.2.1]
  · intro h h2
    have hcn : stt_change_needed
        (_update_tts_options agent.kwami_config.voice p p.tts_voice
          (decide (agent.kwami_config.voice.tts_provider = str "elevenlabs")) rt)
        p = true := by
      unfold stt_change_needed at h2 ⊢
      rw [hpres.1, hpres.2.1]
      exact h2
    simp only [update_voice, h]
    simp only [Bool.false_eq_true, if_false, _update_stt_if_needed, hcn,
      if_true, SessionState.update_agent, Option.map_some,
      create_agent_from_config]
    by_cases hp : truthyS p.stt_provider = true <;>
      (repeat' split) <;> simp_all [hpres.1]

/-- Witness for the amended C7: on the concrete replace-path input the STT
fields are carried over unchanged. -/
theorem C7_stt_gated_by_tts_outcome_witness :
    ((update_voice
        (create_session_state ⟨default_kwami_config false, none, false⟩ none none)
        ⟨default_kwami_config false, none, false⟩
        ⟨some (str "cartesia"), none, none, none, some (str "openai"), none, none⟩
        ⟨false, [], [], [], false, false⟩ ⟨false, false⟩).current_agent.map
        (fun a => (a.kwami_config.voice.stt_provider,
                   a.kwami_config.voice.stt_model,
                   a.kwami_config.voice.stt_language))) =
      some (str "deepgram", str "nova-2", str "en") := by
  have h := (C7_stt_gated_by_tts_outcome
    (create_session_state ⟨default_kwami_config false, none, false⟩ none none)
    ⟨default_kwami_config false, none, false⟩
    ⟨some (str "cartesia"), none, none, none, some (str "openai"), none, none⟩
    ⟨false, [], [], [], false, false⟩ ⟨false, false⟩).1 (by decide)
  simpa using h

/-- Looking up a key after the first-occurrence update sees the updated
entry. -/
lemma usage_find_update (u : UsageMap) (key : Str) (a : ℚ) :
    usage_find (usage_update key a u) key =
      (usage_find u key).map fun e =>
        { e with total_units := e.total_units + a,
                 event_count := e.event_count + 1 } := by
  induction u with
  | nil => rfl
  | cons hd tl ih =>
    obtain ⟨k, e⟩ := hd
    by_cases h : k = key
    · subst h
      simp [usage_update, usage_find]
    · simp [usage_update, usage_find, h, ih]

/-- Appending a fresh entry makes it the one the lookup finds. -/
lemma usage_find_append_fresh (u : UsageMap) (key : Str) (e : ModelUsage)
    (h : usage_find u key = none) :
    usage_find (u ++ [(key, e)]) key = some e := by
  induction u with
  | nil => simp [usage_find]
  | cons hd tl ih =>
    by_cases hk : hd.1 = key
    · simp [usage_find, hk] at h
    · simp only [usage_find, hk] at h
      simpa [usage_find, hk] using ih h

/-- Bumping a `(type, id)` accumulator adds exactly `amount` to its total. -/
lemma usage_bump_total (u : UsageMap) (t i : Str) (a : ℚ) :
    usage_total (usage_bump u t i a) (usage_key t i) =
      usage_total u (usage_key t i) + a := by
  unfold usage_bump usage_total
  cases h : usage_find u (usage_key t i) with
  | none => simp [h, usage_find_append_fresh u _ _ h]
  | some e => simp [h, usage_find_update]

/-- C8: a generation metrics event whose derived token measure (`total` if
non-zero, else `prompt + completion`) is zero or negative leaves the whole
tracker unchanged; a positive measure adds exactly that measure to the
accumulated total of the event's `(llm, model id)` key. -/
theorem C8_llm_metrics_accumulation (u : UsageMap) (m : LLMMetrics) :
    ((if m.total_tokens = 0 then m.prompt_tokens + m.completion_tokens
      else m.total_tokens) ≤ 0 → on_llm_metrics u m = u) ∧
    (0 < (if m.total_tokens = 0 then m.prompt_tokens + m.completion_tokens
      else m.total_tokens) →
      usage_total (on_llm_metrics u m)
          (usage_key (str "llm") (_get_model_id m.label m.metadata)) =
        usage_total u
            (usage_key (str "llm") (_get_model_id m.label m.metadata)) +
          ((if m.total_tokens = 0 then m.prompt_tokens + m.completion_tokens
            else m.total_tokens : ℤ) : ℚ)) := by
  constructor
  · intro h
    simp [on_llm_metrics, h]
  · intro h
    rw [on_llm_metrics]
    rw [if_neg (by omega : ¬(if m.total_tokens = 0 then
      m.prompt_tokens + m.completion_tokens else m.total_tokens) ≤ 0)]
    exact usage_bump_total u _ _ _

/-- Witness for C8: 150 prompt + 50 completion tokens with no explicit
total accumulate to exactly 200. -/
theorem C8_llm_metrics_accumulation_witness :
    usage_total (on_llm_metrics [] ⟨0, 150, 50, none, none⟩)
      (usage_key (str "llm") (str "unknown")) = 200 := by
  have h : usage_total (on_llm_metrics [] ⟨0, 150, 50, none, none⟩)
      (usage_key (str "llm") (str "unknown")) =
      usage_total [] (usage_key (str "llm") (str "unknown")) +
        ((200 : ℤ) : ℚ) :=
    (C8_llm_metrics_accumulation [] ⟨0, 150, 50, none, none⟩).2 (by decide)
  rw [h]
  simp [usage_total, usage_find]

/-- C9: the usage report is a no-op success when the tracker has no usage;
a failure without any network call when no signing credential is
configured; otherwise exactly one network call is issued and the result is
success exactly when the response is a 200, transport failures and other
statuses producing a returned failure (never an exception). -/
theorem C9_report_behavior (u : UsageMap) (api_key : Str) (net : NetOutcome) :
    (tracker_has_usage u = false → report u api_key net = (true, 0)) ∧
    (tracker_has_usage u = true → api_key.isEmpty = true →
      report u api_key net = (false, 0)) ∧
    (tracker_has_usage u = true → api_key.isEmpty = false →
      (report u api_key net).2 = 1 ∧
        ((report u api_key net).1 = true ↔ net = some 200)) := by
  refine ⟨fun h => by simp [report, h], fun h hk => by simp [report, h, hk],
    fun h hk => ?_⟩
  cases net with
  | none => simp [report, h, hk]
  | some status =>
    by_cases hs : status = 200 <;> simp [report, h, hk, hs]

/-- Witness for C9: a tracker with usage, a configured credential and a 500
response yields one network call and a returned failure. -/
theorem C9_report_behavior_witness :
    (report [(usage_key (str "llm") (str "m"),
        ⟨str "llm", str "m", 5, 1⟩)] (str "k") (some 500)).2 = 1 ∧
      ((report [(usage_key (str "llm") (str "m"),
        ⟨str "llm", str "m", 5, 1⟩)] (str "k") (some 500)).1 = true ↔
        (some 500 : NetOutcome) = some 200) :=
  (C9_report_behavior [(usage_key (str "llm") (str "m"),
    ⟨str "llm", str "m", 5, 1⟩)] (str "k") (some 500)).2.2
    (by decide) (by decide)

/-- Swapping onto a factory-built agent that receives the outgoing agent's
memory handle schedules nothing and keeps the handle reachable. -/
lemma update_agent_create_preserves (st : SessionState) (ag : KwamiAgent)
    (cfg : KwamiConfig) (sk : Bool) (hcur : st.current_agent = some ag) :
    (st.update_agent (create_agent_from_config cfg ag._memory sk))._cleanup_tasks
        = st._cleanup_tasks ∧
    ((st.update_agent
        (create_agent_from_config cfg ag._memory sk)).current_agent.map
      KwamiAgent._memory) = some ag._memory := by
  have h := update_agent_same_memory st ag
    (create_agent_from_config cfg ag._memory sk) hcur rfl
  exact ⟨h.1, by rw [h.2]; rfl⟩

/-- An STT evaluation (replace or patch) keeps the cleanup-task list and the
memory object of the current agent untouched. -/
lemma stt_update_preserves (st : SessionState) (ag : KwamiAgent)
    (p : VoiceUpdate) (rst : SttRuntime)
    (hcur : st.current_agent = some ag) :
    (_update_stt_if_needed st ag p rst)._cleanup_tasks = st._cleanup_tasks ∧
    ((_update_stt_if_needed st ag p rst).current_agent.map
      KwamiAgent._memory) = some ag._memory := by
  simp only [_update_stt_if_needed]
  split
  · exact update_agent_create_preserves st ag _ true hcur
  · exact ⟨rfl, by rw [hcur]; rfl⟩

/-- C10: every partial-update replacement (voice-triggered TTS replace, the
STT replace, and the LLM replace) builds the new instance with the identical
memory object of the outgoing instance, so no cleanup task is scheduled and
the memory context survives the swap. -/
theorem C10_partial_updates_share_memory (st : SessionState)
    (agent : KwamiAgent) (p : VoiceUpdate) (pl : LLMUpdate) (rt : TtsRuntime)
    (rst : SttRuntime) (hcur : st.current_agent = some agent) :
    ((update_voice st agent p rt rst)._cleanup_tasks = st._cleanup_tasks ∧
      ((update_voice st agent p rt rst).current_agent.map
        KwamiAgent._memory) = some agent._memory) ∧
    ((update_llm st agent pl)._cleanup_tasks = st._cleanup_tasks ∧
      ((update_llm st agent pl).current_agent.map
        KwamiAgent._memory) = some agent._memory) ∧
    ((_update_stt_if_needed st agent p rst)._cleanup_tasks =
        st._cleanup_tasks ∧
      ((_update_stt_if_needed st agent p rst).current_agent.map
        KwamiAgent._memory) = some agent._memory) := by
  refine ⟨?_, ?_, stt_update_preserves st agent p rst hcur⟩
  · simp only [update_voice]
    split
    · exact update_agent_create_preserves st agent _ true hcur
    · have h := stt_update_preserves
        (SessionState.mk
          (some (KwamiAgent.mk
            (KwamiConfig.mk agent.kwami_config.kwami_id
              agent.kwami_config.kwami_name agent.kwami_config.persona
              (_update_tts_options agent.kwami_config.voice p p.tts_voice
                (decide (agent.kwami_config.voice.tts_provider =
                  str "elevenlabs")) rt)
              agent.kwami_config.memory)
            agent._memory agent._skip_greeting))
          st.user_identity st.room_name st.greeting_delivered
          st._cleanup_tasks)
        (KwamiAgent.mk
          (KwamiConfig.mk agent.kwami_config.kwami_id
            agent.kwami_config.kwami_name agent.kwami_config.persona
            (_update_tts_options agent.kwami_config.voice p p.tts_voice
              (decide (agent.kwami_config.voice.tts_provider =
                str "elevenlabs")) rt)
            agent.kwami_config.memory)
          agent._memory agent._skip_greeting)
        p rst rfl
      exact ⟨h.1, h.2⟩
  · simp only [update_llm]
    exact update_agent_create_preserves st agent _ true hcur

/-- Witness for C10: a concrete LLM update carries the memory handle over
and schedules no cleanup. -/
theorem C10_partial_updates_share_memory_witness :
    (update_llm
        (create_session_state ⟨default_kwami_config false, some 3, false⟩ none none)
        ⟨default_kwami_config false, some 3, false⟩
        ⟨none, none, none⟩)._cleanup_tasks = [] ∧
    ((update_llm
        (create_session_state ⟨default_kwami_config false, some 3, false⟩ none none)
        ⟨default_kwami_config false, some 3, false⟩
        ⟨none, none, none⟩).current_agent.map KwamiAgent._memory) =
      some (some 3) := by
  have h := C10_partial_updates_share_memory
    (create_session_state ⟨default_kwami_config false, some 3, false⟩ none none)
    ⟨default_kwami_config false, some 3, false⟩
    ⟨none, none, none, none, none, none, none⟩ ⟨none, none, none⟩
    ⟨false, [], [], [], false, false⟩ ⟨false, false⟩ rfl
  exact ⟨h.2.1.1, h.2.1.2⟩
